import Mathlib

/-!
Verification of the Quote_Generator repository.

The repository has two components:
* a client-side quote selector and string formatters (`src/script.js`), and
* an Express text-to-speech proxy endpoint (`src/unnamed/part_001`,
  the POST handler for the `/api/tts` route).

Each Lean definition below is a shallow embedding of the corresponding
JavaScript, translated directly from the source.  JavaScript strings are
modelled as Lean `String`s, with `String.length` standing for the JS
`.length` (the two agree for all characters in the Basic Multilingual
Plane, which covers every string manipulated here).  `Math.random`-driven
draws are modelled by passing the stream of drawn indices explicitly.
-/

namespace QuoteGenerator

/-- A quote record, as the objects of `LOCAL_QUOTES` in `src/script.js`
(fields `content`, `author`, `tags`). -/
structure QuoteRecord where
  content : String
  author : String
  tags : List String
deriving DecidableEq, Repr

/-- The fixed quote list `LOCAL_QUOTES` of `src/script.js` lines 20–96. -/
def LOCAL_QUOTES : List QuoteRecord := [
  ⟨"The only way to do great work is to love what you do.",
   "Steve Jobs", ["motivation", "work", "passion"]⟩,
  ⟨"Innovation distinguishes between a leader and a follower.",
   "Steve Jobs", ["innovation", "leadership"]⟩,
  ⟨"Life is what happens to you while you're busy making other plans.",
   "John Lennon", ["life", "wisdom"]⟩,
  ⟨"The future belongs to those who believe in the beauty of their dreams.",
   "Eleanor Roosevelt", ["dreams", "future", "inspiration"]⟩,
  ⟨"It is during our darkest moments that we must focus to see the light.",
   "Aristotle", ["hope", "perseverance", "wisdom"]⟩,
  ⟨"Success is not final, failure is not fatal: it is the courage to continue that counts.",
   "Winston Churchill", ["success", "courage", "perseverance"]⟩,
  ⟨"The only impossible journey is the one you never begin.",
   "Tony Robbins", ["motivation", "action", "inspiration"]⟩,
  ⟨"In the middle of difficulty lies opportunity.",
   "Albert Einstein", ["opportunity", "challenges", "wisdom"]⟩,
  ⟨"Believe you can and you're halfway there.",
   "Theodore Roosevelt", ["belief", "confidence", "motivation"]⟩,
  ⟨"The only person you are destined to become is the person you decide to be.",
   "Ralph Waldo Emerson", ["self-improvement", "destiny", "choice"]⟩,
  ⟨"What lies behind us and what lies before us are tiny matters compared to what lies within us.",
   "Ralph Waldo Emerson", ["inner strength", "wisdom", "perspective"]⟩,
  ⟨"Do not go where the path may lead, go instead where there is no path and leave a trail.",
   "Ralph Waldo Emerson", ["leadership", "innovation", "courage"]⟩,
  ⟨"Twenty years from now you will be more disappointed by the things that you didn't do than by the ones you did do.",
   "Mark Twain", ["action", "regret", "motivation"]⟩,
  ⟨"Your time is limited, don't waste it living someone else's life.",
   "Steve Jobs", ["time", "authenticity", "life"]⟩,
  ⟨"If you want to lift yourself up, lift up someone else.",
   "Booker T. Washington", ["helping others", "leadership", "growth"]⟩]

/-- The redraw loop of `fetchNewQuote` (`src/script.js` lines 258–261):
`let newIndex = randomIndex; while (newIndex === randomIndex) newIndex = draw()`.
`draws` is the stream of successive `Math.floor(Math.random() * length)`
results; the loop ends at the first draw different from `randomIndex`.
`none` models the (probability-zero) event that the stream never leaves
`randomIndex`, i.e. the loop not terminating within the given draws. -/
def findDifferentIndex (randomIndex : Nat) : List Nat → Option Nat
  | [] => none
  | d :: ds => if d = randomIndex then findDifferentIndex randomIndex ds else some d

/-- The quote-selection core of `QuoteGenerator.fetchNewQuote`
(`src/script.js` lines 252–268), with the global `LOCAL_QUOTES` made an
explicit parameter `quotes` (the code always calls it on `LOCAL_QUOTES`)
and the global `currentQuote` passed in.  `randomIndex` is the first
`Math.floor(Math.random() * quotes.length)` draw and `draws` the stream
feeding the redraw loop.  The returned record is the one assigned to
`currentQuote` and displayed; `none` models an out-of-range index access
(impossible for real draws) or a non-terminating redraw loop. -/
def selectQuote (quotes : List QuoteRecord) (currentQuote : Option QuoteRecord)
    (randomIndex : Nat) (draws : List Nat) : Option QuoteRecord :=
  match quotes[randomIndex]? with
  | none => none
  | some selectedQuote =>
    match currentQuote with
    | none => some selectedQuote
    | some cq =>
      if selectedQuote.content = cq.content ∧ 1 < quotes.length then
        match findDifferentIndex randomIndex draws with
        | none => none
        | some newIndex => quotes[newIndex]?
      else
        some selectedQuote

/-- `TWITTER_CONFIG.HASHTAGS` of `src/script.js` line 110. -/
def TWITTER_CONFIG_HASHTAGS : String := "motivation,inspiration,quotes,dailyquote"

/-- The JS global regex replace of `src/script.js` line 452: every comma
is replaced by the two characters space and hash (the pattern is a single
character, so the global replace is this character-wise rewrite). -/
def replaceCommaWithHash (s : String) : String :=
  ⟨s.data.foldr (fun c acc => if c = ',' then ' ' :: '#' :: acc else c :: acc) []⟩

/-- The `hashtags` string built in `formatQuoteForTwitter`
(`src/script.js` line 452): a space and a hash, then the configured
hashtag names joined by space-hash separators. -/
def hashtagsStr : String := " #" ++ replaceCommaWithHash TWITTER_CONFIG_HASHTAGS

/-- `QuoteGenerator.formatQuoteForSharing` (`src/script.js` lines 441–443):
`` `"${quote.content}"\n\n— ${quote.author}` ``. -/
def formatQuoteForSharing (quote : QuoteRecord) : String :=
  "\"" ++ quote.content ++ "\"\n\n— " ++ quote.author

/-- `QuoteGenerator.formatQuoteForTwitter` (`src/script.js` lines 450–464).
JS `substring(0, n)` (with a possibly negative `n`, clamped to `0`) is
`String.take` with truncated `Nat` subtraction, which clamps identically. -/
def formatQuoteForTwitter (quote : QuoteRecord) : String :=
  let baseText := "\"" ++ quote.content ++ "\" — " ++ quote.author
  let hashtags := hashtagsStr
  let maxLength := 280 - hashtags.length - 10
  if baseText.length ≤ maxLength then
    baseText ++ hashtags
  else
    let truncatedContent := quote.content.take (maxLength - quote.author.length - 20) ++ "..."
    "\"" ++ truncatedContent ++ "\" — " ++ quote.author ++ hashtags

/-- Modelled from the spec (§4.1, `formatForSocialShare`), not from the
source — the comparison point for the truncation-policy refinement claim:
build `"<text>" — <author> <hashtags>`; if the result exceeds `maxLength`,
reserve space for the suffixes `" — <author>"` and `" <hashtags>"` first,
then truncate the text to the remaining budget minus 3 characters for the
ellipsis. -/
def specFormatForSocialShare (quote : QuoteRecord) (hashtags : String) (maxLength : Nat) : String :=
  let full := "\"" ++ quote.content ++ "\" — " ++ quote.author ++ " " ++ hashtags
  if full.length ≤ maxLength then
    full
  else
    let budget := maxLength - (" — " ++ quote.author).length - (" " ++ hashtags).length
    let truncated := quote.content.take (budget - 3) ++ "..."
    "\"" ++ truncated ++ "\" — " ++ quote.author ++ " " ++ hashtags

/-! ## The TTS proxy (`src/unnamed/part_001`, the `/api/tts` POST handler)

The endpoint is modelled as a pure function of the `text` field of the
request body, the `ELEVENLABS_API_KEY` environment variable, and the behaviour
of the single upstream HTTPS request it may issue.  A field that is
absent (`undefined`) is `none`; JS falsiness of a string (`!text`,
`!apiKey`) is `none`-or-empty. -/

/-- `ELEVENLABS_CONFIG.VOICE_ID` (`src/unnamed/part_001` line 24). -/
def ELEVENLABS_VOICE_ID : String := "21m00Tcm4TlvDq8ikWAM"

/-- One outbound request to the ElevenLabs endpoint, as assembled in
`src/unnamed/part_001` lines 53–70: the text sent by the caller, the fixed voice
and model identifiers, and the server-held key in the `xi-api-key`
header.  The fixed numeric `voice_settings` object (stability 0.75,
similarity_boost 0.75, style 0.0, use_speaker_boost true) is a constant
and is not modelled field-by-field. -/
structure UpstreamCall where
  text : String
  voiceId : String
  modelId : String
  apiKey : String
deriving DecidableEq, Repr

/-- Behaviour of the upstream service on the one request the handler may
issue: HTTP 200 with an audio body, a non-200 status with an error body,
a transport error (the error event of `apiRequest`), or never
responding at all (`hang`) — the code configures no timeout, so `hang`
is a reachable environment behaviour. -/
inductive UpstreamOutcome where
  | ok (body : String)
  | httpError (status : Nat) (body : String)
  | netError
  | hang
deriving DecidableEq, Repr

/-- Body of the HTTP response of the proxy: a JSON error object
`{ error: ... }` or the upstream audio bytes streamed through verbatim. -/
inductive ResBody where
  | json (error : String)
  | audio (bytes : String)
deriving DecidableEq, Repr

/-- The HTTP response of the proxy: status code and body. -/
structure TtsResponse where
  status : Nat
  body : ResBody
deriving DecidableEq, Repr

/-- The `/api/tts` handler (`src/unnamed/part_001` lines 36–112, the
`https.request` variant; the `node-fetch` variant lines 173–224 differs
only in the error-message text).  Returns the response sent to the
client (`none` when no response is ever sent — which happens exactly
when the untimed upstream request hangs) paired with the list of
upstream calls issued. -/
def handleTts (text : Option String) (apiKey : Option String)
    (upstream : UpstreamOutcome) : Option TtsResponse × List UpstreamCall :=
  match text with
  | none => (some ⟨400, .json "Text is required"⟩, [])
  | some t =>
    if t = "" then
      (some ⟨400, .json "Text is required"⟩, [])
    else
      match apiKey with
      | none => (some ⟨500, .json "ElevenLabs API key not configured"⟩, [])
      | some k =>
        if k = "" then
          (some ⟨500, .json "ElevenLabs API key not configured"⟩, [])
        else
          let call : UpstreamCall := ⟨t, ELEVENLABS_VOICE_ID, "eleven_monolingual_v1", k⟩
          match upstream with
          | .ok body => (some ⟨200, .audio body⟩, [call])
          | .httpError st _ =>
            (some ⟨st, .json ("ElevenLabs API error: " ++ toString st)⟩, [call])
          | .netError => (some ⟨500, .json "Network error connecting to ElevenLabs"⟩, [call])
          | .hang => (none, [call])

/-! ## Theorems -/

theorem findDifferentIndex_ne (randomIndex : Nat) (draws : List Nat) (j : Nat)
    (h : findDifferentIndex randomIndex draws = some j) : j ≠ randomIndex := by
  induction draws with
  | nil => simp [findDifferentIndex] at h
  | cons d ds ih =>
    simp only [findDifferentIndex] at h
    by_cases hd : d = randomIndex
    · rw [if_pos hd] at h; exact ih h
    · rw [if_neg hd] at h
      cases h
      exact hd

set_option maxRecDepth 8000 in
theorem LOCAL_QUOTES_content_inj :
    ∀ i j : Fin LOCAL_QUOTES.length,
      (LOCAL_QUOTES.get i).content = (LOCAL_QUOTES.get j).content → i = j := by decide

/-- C1: over `LOCAL_QUOTES` (which has more than one entry), for every
previously selected record — whatever its text `t` — the draw-and-redraw
of `fetchNewQuote` never returns a record whose text equals `t`: whenever
it returns a record at all, its `content` differs from the `content` of
the previous record, because either no redraw was needed (the drawn content
already differed) or the loop redrew until a distinct index, whose record
has distinct content. -/
theorem fetchNewQuote_never_repeats_text (cq q : QuoteRecord) (randomIndex : Nat)
    (draws : List Nat)
    (h : selectQuote LOCAL_QUOTES (some cq) randomIndex draws = some q) :
    q.content ≠ cq.content := by
  unfold selectQuote at h
  cases hsel : LOCAL_QUOTES[randomIndex]? with
  | none => rw [hsel] at h; exact absurd h (by simp)
  | some sq =>
    rw [hsel] at h
    simp only at h
    by_cases hc : sq.content = cq.content ∧ 1 < LOCAL_QUOTES.length
    · rw [if_pos hc] at h
      cases hfd : findDifferentIndex randomIndex draws with
      | none => rw [hfd] at h; exact absurd h (by simp)
      | some j =>
        rw [hfd] at h
        simp only at h
        have hji : j ≠ randomIndex := findDifferentIndex_ne randomIndex draws j hfd
        have hjlt : j < LOCAL_QUOTES.length := by
          by_contra hge
          rw [List.getElem?_eq_none (Nat.le_of_not_lt hge)] at h
          exact absurd h (by simp)
        have hrlt : randomIndex < LOCAL_QUOTES.length := by
          by_contra hge
          rw [List.getElem?_eq_none (Nat.le_of_not_lt hge)] at hsel
          exact absurd hsel (by simp)
        have hq : LOCAL_QUOTES.get ⟨j, hjlt⟩ = q := by
          have := List.getElem?_eq_getElem hjlt
          rw [this] at h
          exact Option.some.inj h
        have hsq : LOCAL_QUOTES.get ⟨randomIndex, hrlt⟩ = sq := by
          have := List.getElem?_eq_getElem hrlt
          rw [this] at hsel
          exact Option.some.inj hsel
        intro hqc
        have hcc : (LOCAL_QUOTES.get ⟨j, hjlt⟩).content
            = (LOCAL_QUOTES.get ⟨randomIndex, hrlt⟩).content := by
          rw [hq, hsq, hqc, hc.1]
        have := LOCAL_QUOTES_content_inj _ _ hcc
        exact hji (congrArg Fin.val this)
    · rw [if_neg hc] at h
      have hsq : sq = q := Option.some.inj h
      subst hsq
      intro hqc
      exact hc ⟨hqc, by decide⟩

/-- Witness for C1: with the first quote previously selected, a first
draw of index 0 (the same quote) and a redraw stream whose first draw is
index 1, the selection returns the second quote, whose text differs. -/
theorem fetchNewQuote_never_repeats_text_witness :
    selectQuote LOCAL_QUOTES (some (⟨"The only way to do great work is to love what you do.",
        "Steve Jobs", ["motivation", "work", "passion"]⟩ : QuoteRecord)) 0 [0, 1]
      = some (⟨"Innovation distinguishes between a leader and a follower.",
        "Steve Jobs", ["innovation", "leadership"]⟩ : QuoteRecord) ∧
    (⟨"Innovation distinguishes between a leader and a follower.",
        "Steve Jobs", ["innovation", "leadership"]⟩ : QuoteRecord).content
      ≠ (⟨"The only way to do great work is to love what you do.",
        "Steve Jobs", ["motivation", "work", "passion"]⟩ : QuoteRecord).content := by
  constructor
  · decide
  · exact fetchNewQuote_never_repeats_text _ _ 0 [0, 1] (by decide)

/-- C8: on a list with exactly one record, the selection operation
returns that record for every previous quote (in particular for every
previous text) and for every redraw stream — including the empty one —
so the redraw loop is never entered and selection terminates. -/
theorem selectQuote_singleton (q : QuoteRecord) (currentQuote : Option QuoteRecord)
    (draws : List Nat) :
    selectQuote [q] currentQuote 0 draws = some q := by
  cases currentQuote with
  | none => rfl
  | some cq =>
    unfold selectQuote
    simp only [List.getElem?_cons_zero]
    rw [if_neg]
    rintro ⟨-, hlen⟩
    simp at hlen

set_option maxRecDepth 8000 in
/-- C10: every record of `LOCAL_QUOTES` has non-empty `content` and
non-empty `author`, the list has exactly 15 records, and the 15 content
strings are pairwise distinct (`Nodup`) — the invariant that makes the
index-based redraw produce a record with a different text. -/
theorem LOCAL_QUOTES_invariant :
    LOCAL_QUOTES.length = 15 ∧
    (LOCAL_QUOTES.all fun q => !q.content.isEmpty && !q.author.isEmpty) = true ∧
    (LOCAL_QUOTES.map fun q => q.content).Nodup := by
  refine ⟨rfl, rfl, ?_⟩
  decide

/-- C9: the clipboard formatter returns exactly the text in double
quotes, two newlines, an em-dash and a space, then the author — stated
with each piece as its own factor — and on `{text: "Hi", author: "Bob"}`
it yields `"Hi"\n\n— Bob`. -/
theorem formatQuoteForSharing_exact :
    (∀ q : QuoteRecord,
      formatQuoteForSharing q
        = "\"" ++ q.content ++ "\"" ++ "\n\n" ++ "—" ++ " " ++ q.author) ∧
    formatQuoteForSharing ⟨"Hi", "Bob", []⟩ = "\"Hi\"\n\n— Bob" := by
  constructor
  · intro q
    apply String.ext
    simp only [formatQuoteForSharing, String.data_append, List.append_assoc]
    rfl
  · rfl

/-- C4: a request with absent `text`, and a request with empty `text`,
are both answered with status 400 `Text is required`, and no upstream
call is issued — for every credential state and every upstream
behaviour. -/
theorem handleTts_invalid_input (apiKey : Option String) (upstream : UpstreamOutcome) :
    handleTts none apiKey upstream = (some ⟨400, .json "Text is required"⟩, []) ∧
    handleTts (some "") apiKey upstream = (some ⟨400, .json "Text is required"⟩, []) :=
  ⟨rfl, rfl⟩

/-- C5: a request with non-empty text but no configured credential
(absent — or present but empty, which the JS falsiness test also
rejects) is answered with status 500 `ElevenLabs API key not
configured`, and no upstream call is ever issued, for every upstream
behaviour: the credential is checked before the outbound call. -/
theorem handleTts_misconfigured (t : String) (upstream : UpstreamOutcome) (ht : t ≠ "") :
    handleTts (some t) none upstream
      = (some ⟨500, .json "ElevenLabs API key not configured"⟩, []) ∧
    handleTts (some t) (some "") upstream
      = (some ⟨500, .json "ElevenLabs API key not configured"⟩, []) := by
  constructor <;> simp [handleTts, ht]

/-- Witness for C5: concrete instance at `text = "hello"`. -/
theorem handleTts_misconfigured_witness :
    handleTts (some "hello") none .netError
      = (some ⟨500, .json "ElevenLabs API key not configured"⟩, []) ∧
    handleTts (some "hello") (some "") .netError
      = (some ⟨500, .json "ElevenLabs API key not configured"⟩, []) :=
  handleTts_misconfigured "hello" .netError (by decide)

/-- Counterexample to C3 as stated: the error response does not carry
the upstream body.  Two upstream 503 responses with different bodies
produce the very same proxy response (the body is read and logged, but
only the status code reaches the client), so the failure cannot be
carrying the upstream body. -/
theorem handleTts_upstream_body_not_carried :
    handleTts (some "hello") (some "key") (.httpError 503 "boom")
      = handleTts (some "hello") (some "key") (.httpError 503 "zzz") ∧
    "boom" ≠ "zzz" :=
  ⟨rfl, by decide⟩

/-- C3 (amended): on a valid, credentialed request with the upstream
answering a non-200 status, the proxy responds with that same status
code and an error message naming it (but not the upstream body), and it
issues exactly one upstream call — no retry. -/
theorem handleTts_upstream_error (t k b : String) (st : Nat) (ht : t ≠ "") (hk : k ≠ "") :
    handleTts (some t) (some k) (.httpError st b)
      = (some ⟨st, .json ("ElevenLabs API error: " ++ toString st)⟩,
         [⟨t, ELEVENLABS_VOICE_ID, "eleven_monolingual_v1", k⟩]) := by
  simp [handleTts, ht, hk]

/-- Witness for C3: concrete 503 instance, one single upstream call. -/
theorem handleTts_upstream_error_witness :
    handleTts (some "hello") (some "key") (.httpError 503 "oops")
      = (some ⟨503, .json ("ElevenLabs API error: " ++ toString 503)⟩,
         [⟨"hello", ELEVENLABS_VOICE_ID, "eleven_monolingual_v1", "key"⟩]) :=
  handleTts_upstream_error "hello" "key" "oops" 503 (by decide) (by decide)

/-- C6 (evaluating the code at the failing input): the handler sets no
timeout on the outbound request, so when the upstream never responds the
proxy sends no response at all — it does not abandon the call and report
`NetworkError` after a bound, contrary to what the spec requires.  The
single upstream call is still issued exactly once. -/
theorem handleTts_hang_no_response (t k : String) (ht : t ≠ "") (hk : k ≠ "") :
    handleTts (some t) (some k) .hang
      = (none, [⟨t, ELEVENLABS_VOICE_ID, "eleven_monolingual_v1", k⟩]) := by
  simp [handleTts, ht, hk]

/-- Witness for C6: the concrete `synthesize("hello")` instance. -/
theorem handleTts_hang_no_response_witness :
    handleTts (some "hello") (some "key") .hang
      = (none, [⟨"hello", ELEVENLABS_VOICE_ID, "eleven_monolingual_v1", "key"⟩]) :=
  handleTts_hang_no_response "hello" "key" (by decide) (by decide)

theorem hashtagsStr_length : hashtagsStr.length = 45 := rfl

theorem string_take_length (s : String) (n : Nat) : (s.take n).length = min n s.length := by
  rw [String.length, String.data_take, List.length_take, String.length]

set_option maxRecDepth 8000 in
/-- Counterexample to C2 as stated: a record whose author has 228
characters (content `"x"`) makes `formatQuoteForTwitter` return a
281-character string — the code truncates only the quote text, never the
author, so a long author overflows the 280-character maximum. -/
theorem formatQuoteForTwitter_overflow :
    280 < (formatQuoteForTwitter ⟨"x", String.mk (List.replicate 228 'a'), []⟩).length := by
  decide

/-- C2 (amended): for every record whose author has at most 227
characters, the output never exceeds 280 characters; and whenever
truncation occurs (the base text exceeds the 225-character budget), the
output is the truncated text followed immediately by the `...` ellipsis,
then the unmodified author and hashtag suffixes. -/
theorem formatQuoteForTwitter_bounded (q : QuoteRecord) (h : q.author.length ≤ 227) :
    (formatQuoteForTwitter q).length ≤ 280 ∧
    (280 - hashtagsStr.length - 10 < ("\"" ++ q.content ++ "\" — " ++ q.author).length →
      formatQuoteForTwitter q
        = "\"" ++ q.content.take (280 - hashtagsStr.length - 10 - q.author.length - 20)
            ++ "..." ++ "\" — " ++ q.author ++ hashtagsStr) := by
  unfold formatQuoteForTwitter
  simp only [hashtagsStr_length]
  split_ifs with hle
  · constructor
    · simp only [String.length_append, hashtagsStr_length]
      simp only [String.length_append] at hle
      omega
    · intro hgt
      simp only [String.length_append] at hle hgt
      omega
  · constructor
    · simp only [String.length_append, string_take_length, hashtagsStr_length]
      have h1 : ("\"" : String).length = 1 := rfl
      have h2 : ("\" — " : String).length = 4 := rfl
      have h3 : ("..." : String).length = 3 := rfl
      rw [h1, h2, h3]
      omega
    · intro _
      apply String.ext
      simp only [String.data_append, List.append_assoc]

set_option maxRecDepth 8000 in
/-- Witness for C2: a 300-character quote text by a 3-character author is
formatted within the 280-character bound. -/
theorem formatQuoteForTwitter_bounded_witness :
    (⟨String.mk (List.replicate 300 'a'), "Bob", []⟩ : QuoteRecord).author.length ≤ 227 ∧
    (formatQuoteForTwitter ⟨String.mk (List.replicate 300 'a'), "Bob", []⟩).length ≤ 280 :=
  ⟨by decide, (formatQuoteForTwitter_bounded ⟨String.mk (List.replicate 300 'a'), "Bob", []⟩
    (by decide)).1⟩

set_option maxRecDepth 8000 in
/-- Counterexample to C7 as stated: on a 300-character quote text by
`Bob`, the truncation performed by the code differs from the
reserve-the-suffixes-then-truncate-minus-3 policy of the spec — the code
keeps 202 characters of text where the spec policy keeps 223, because the
code subtracts extra safety margins (10, then author length + 20)
instead of exactly the suffix lengths plus 3. -/
theorem formatQuoteForTwitter_ne_spec_policy :
    formatQuoteForTwitter ⟨String.mk (List.replicate 300 'a'), "Bob", []⟩
      ≠ specFormatForSocialShare ⟨String.mk (List.replicate 300 'a'), "Bob", []⟩
          "#motivation #inspiration #quotes #dailyquote" 280 := by
  decide

/-- C7 (amended): the actual truncation policy of the code — it first
reserves the hashtag-suffix length plus a fixed margin of 10 to bound
the base text (budget 225), and when truncating it keeps
`225 − authorLength − 20 = 205 − authorLength` characters of the quote
text (truncated `Nat` subtraction) before appending the 3-character
ellipsis, then the `" — <author>"` and hashtag suffixes. -/
theorem formatQuoteForTwitter_truncation_policy (q : QuoteRecord)
    (h : 280 - hashtagsStr.length - 10 < ("\"" ++ q.content ++ "\" — " ++ q.author).length) :
    formatQuoteForTwitter q
      = "\"" ++ q.content.take (205 - q.author.length) ++ "..." ++ "\" — "
          ++ q.author ++ hashtagsStr := by
  unfold formatQuoteForTwitter
  rw [if_neg (by rw [hashtagsStr_length] at h ⊢; omega)]
  have hc : 280 - hashtagsStr.length - 10 - q.author.length - 20 = 205 - q.author.length := by
    rw [hashtagsStr_length]; omega
  rw [hc]
  apply String.ext
  simp only [String.data_append, List.append_assoc]

set_option maxRecDepth 8000 in
/-- Witness for C7: the concrete truncation of a 300-character text by
`Bob` keeps `205 − 3 = 202` characters plus the ellipsis. -/
theorem formatQuoteForTwitter_truncation_policy_witness :
    280 - hashtagsStr.length - 10
        < ("\"" ++ String.mk (List.replicate 300 'a') ++ "\" — " ++ "Bob").length ∧
    formatQuoteForTwitter ⟨String.mk (List.replicate 300 'a'), "Bob", []⟩
      = "\"" ++ (String.mk (List.replicate 300 'a')).take (205 - ("Bob" : String).length)
          ++ "..." ++ "\" — " ++ "Bob" ++ hashtagsStr :=
  ⟨by decide, formatQuoteForTwitter_truncation_policy
    ⟨String.mk (List.replicate 300 'a'), "Bob", []⟩ (by decide)⟩

end QuoteGenerator
